import Mathlib

/-!
Shallow embedding of the `switching-deadlines` library: a German
energy-market holiday / working-day calendar (`CalendarProvider`) and a
deadline calculator (`DeadlineCalculator`).

Dates are modelled as integer day numbers (days since 1970-01-01, UTC
calendar days), together with a calendar `Ymd` (year, month, day) form and
the standard civil-calendar conversions.  The TypeScript code keys its
holiday map by ISO date string `YYYY-MM-DD`; within a year this is in
bijection with the `Ymd` triple, which is what we use as the key.
-/

namespace SwitchingDeadlines

/-- A calendar date: year, month (1-12), day (1-31). -/
structure Ymd where
  year : Int
  month : Nat
  day : Nat
deriving DecidableEq, Repr

/-- Day number (days since 1970-01-01) of a civil date, standard civil
calendar conversion (the arithmetic counterpart of `Date.UTC(y, m-1, d)`). -/
def daysFromCivil (y : Int) (m : Nat) (d : Nat) : Int :=
  let y' : Int := if m ≤ 2 then y - 1 else y
  let era : Int := (if 0 ≤ y' then y' else y' - 399) / 400
  let yoe : Int := y' - era * 400
  let doy : Int := (153 * (((m + 9) % 12 : Nat) : Int) + 2) / 5 + (d : Int) - 1
  let doe : Int := yoe * 365 + yoe / 4 - yoe / 100 + doy
  era * 146097 + doe - 719468

/-- Day number of a `Ymd` date. -/
def Ymd.toDay (d : Ymd) : Int := daysFromCivil d.year d.month d.day

/-- Civil date of a day number; inverse of `daysFromCivil` on valid dates
(the arithmetic counterpart of reading `getFullYear`/`getMonth`/`getDate`
from a UTC `Date`, i.e. of `toISODateString`). -/
def civilFromDays (z : Int) : Ymd :=
  let z' : Int := z + 719468
  let era : Int := (if 0 ≤ z' then z' else z' - 146096) / 146097
  let doe : Nat := (z' - era * 146097).toNat
  let yoe : Nat := (doe - doe / 1460 + doe / 36524 - doe / 146096) / 365
  let y : Int := (yoe : Int) + era * 400
  let doy : Nat := doe - (365 * yoe + yoe / 4 - yoe / 100)
  let mp : Nat := (5 * doy + 2) / 153
  let d : Nat := doy - (153 * mp + 2) / 5 + 1
  let m : Nat := if mp < 10 then mp + 3 else mp - 9
  ⟨if m ≤ 2 then y + 1 else y, m, d⟩

/-- Day of week of a day number, JavaScript `getDay` convention:
0 = Sunday, ..., 6 = Saturday (1970-01-01 was a Thursday = 4). -/
def weekdayOf (z : Int) : Int := (z + 4) % 7

/-- `date-fns` `isWeekend`: Saturday or Sunday. -/
def isWeekendDay (z : Int) : Bool :=
  decide (weekdayOf z = 6) || decide (weekdayOf z = 0)

/-- `date-fns` `previousWednesday`: the Wednesday strictly before `z`
(`previousDay(z, 3)`: `delta = getDay(z) - 3; if delta <= 0 then delta += 7;
subDays(z, delta)`). -/
def previousWednesday (z : Int) : Int :=
  let delta : Int := weekdayOf z - 3
  z - (if delta ≤ 0 then delta + 7 else delta)

/-! ## Holiday data model (`src/holidays/types.ts`) -/

inductive HolidayType where
  | WEEKEND
  | PUBLIC_HOLIDAY
  | OPERATIONAL_HOLIDAY
  | SPECIAL_HOLIDAY
deriving DecidableEq, Repr

inductive Bundesland where
  | BW | BY | BE | BB | HB | HH | HE | MV | NI | NW | RP | SL | SN | ST | SH | TH
deriving DecidableEq, Repr

structure Holiday where
  date : Ymd
  name : String
  type : HolidayType
  bundeslaender : List Bundesland := []
  description : Option String := none
  isOneTime : Bool := false
deriving DecidableEq, Repr

/-! ## Fixed holidays (`src/holidays/fixed.ts`) -/

/-- `getFixedHolidays(year)`. -/
def getFixedHolidays (year : Int) : List Holiday :=
  [ { date := ⟨year, 1, 1⟩, name := "Neujahr",
      type := HolidayType.PUBLIC_HOLIDAY, bundeslaender := [] },
    { date := ⟨year, 1, 6⟩, name := "Heilige Drei Könige",
      type := HolidayType.PUBLIC_HOLIDAY,
      bundeslaender := [Bundesland.BW, Bundesland.BY, Bundesland.ST] },
    { date := ⟨year, 3, 8⟩, name := "Internationaler Frauentag",
      type := HolidayType.PUBLIC_HOLIDAY,
      bundeslaender := [Bundesland.BE, Bundesland.MV] },
    { date := ⟨year, 5, 1⟩, name := "Tag der Arbeit",
      type := HolidayType.PUBLIC_HOLIDAY, bundeslaender := [] },
    { date := ⟨year, 8, 15⟩, name := "Mariä Himmelfahrt",
      type := HolidayType.PUBLIC_HOLIDAY,
      bundeslaender := [Bundesland.BY, Bundesland.SL] },
    { date := ⟨year, 9, 20⟩, name := "Weltkindertag",
      type := HolidayType.PUBLIC_HOLIDAY, bundeslaender := [Bundesland.TH] },
    { date := ⟨year, 10, 3⟩, name := "Tag der Deutschen Einheit",
      type := HolidayType.PUBLIC_HOLIDAY, bundeslaender := [] },
    { date := ⟨year, 10, 31⟩, name := "Reformationstag",
      type := HolidayType.PUBLIC_HOLIDAY,
      bundeslaender := [Bundesland.BB, Bundesland.HB, Bundesland.HH,
        Bundesland.MV, Bundesland.NI, Bundesland.SN, Bundesland.ST,
        Bundesland.SH, Bundesland.TH] },
    { date := ⟨year, 11, 1⟩, name := "Allerheiligen",
      type := HolidayType.PUBLIC_HOLIDAY,
      bundeslaender := [Bundesland.BW, Bundesland.BY, Bundesland.NW,
        Bundesland.RP, Bundesland.SL] },
    { date := ⟨year, 12, 24⟩, name := "Heiligabend",
      type := HolidayType.OPERATIONAL_HOLIDAY, bundeslaender := [],
      description := some "Genereller Feiertag nach GPKE/GeLi Gas" },
    { date := ⟨year, 12, 25⟩, name := "1. Weihnachtstag",
      type := HolidayType.PUBLIC_HOLIDAY, bundeslaender := [] },
    { date := ⟨year, 12, 26⟩, name := "2. Weihnachtstag",
      type := HolidayType.PUBLIC_HOLIDAY, bundeslaender := [] },
    { date := ⟨year, 12, 31⟩, name := "Silvester",
      type := HolidayType.OPERATIONAL_HOLIDAY, bundeslaender := [],
      description := some "Genereller Feiertag nach GPKE/GeLi Gas" } ]

/-! ## Moving holidays (`src/holidays/moving.ts`) -/

/-- Modelled from the spec: the source computes Easter Sunday through the
external `date-easter` npm package, which is not part of this repository;
the spec describes it as "the standard ecclesiastical algorithm for the
Gregorian calendar", embedded here as the anonymous Gregorian computus. -/
def gregorianEaster (y : Int) : Ymd :=
  let a := y % 19
  let b := y / 100
  let c := y % 100
  let d := b / 4
  let e := b % 4
  let f := (b + 8) / 25
  let g := (b - f + 1) / 3
  let h := (19 * a + b - d - g + 15) % 30
  let i := c / 4
  let k := c % 4
  let l := (32 + 2 * e + 2 * i - h - k) % 7
  let m := (a + 11 * h + 22 * l) / 451
  let month := (h + l - 7 * m + 114) / 31
  let day := (h + l - 7 * m + 114) % 31 + 1
  ⟨y, month.toNat, day.toNat⟩

/-- Day number of Easter Sunday of a year. -/
def easterSundayDay (y : Int) : Int :=
  (gregorianEaster y).toDay

/-- `calculateDayOfRepentance(year)`: the Wednesday before November 23,
as a day number. -/
def dayOfRepentanceDay (year : Int) : Int :=
  previousWednesday (daysFromCivil year 11 23)

/-- `getMovingHolidays(year)`. -/
def getMovingHolidays (year : Int) : List Holiday :=
  let easterSunday := easterSundayDay year
  [ { date := civilFromDays (easterSunday - 2), name := "Karfreitag",
      type := HolidayType.PUBLIC_HOLIDAY, bundeslaender := [] },
    { date := civilFromDays easterSunday, name := "Ostersonntag",
      type := HolidayType.PUBLIC_HOLIDAY, bundeslaender := [] },
    { date := civilFromDays (easterSunday + 1), name := "Ostermontag",
      type := HolidayType.PUBLIC_HOLIDAY, bundeslaender := [] },
    { date := civilFromDays (easterSunday + 39), name := "Christi Himmelfahrt",
      type := HolidayType.PUBLIC_HOLIDAY, bundeslaender := [] },
    { date := civilFromDays (easterSunday + 49), name := "Pfingstsonntag",
      type := HolidayType.PUBLIC_HOLIDAY, bundeslaender := [] },
    { date := civilFromDays (easterSunday + 50), name := "Pfingstmontag",
      type := HolidayType.PUBLIC_HOLIDAY, bundeslaender := [] },
    { date := civilFromDays (easterSunday + 60), name := "Fronleichnam",
      type := HolidayType.PUBLIC_HOLIDAY,
      bundeslaender := [Bundesland.BW, Bundesland.BY, Bundesland.HE,
        Bundesland.NW, Bundesland.RP, Bundesland.SL] },
    { date := civilFromDays (dayOfRepentanceDay year), name := "Buß- und Bettag",
      type := HolidayType.PUBLIC_HOLIDAY, bundeslaender := [Bundesland.SN] } ]

/-! ## Special holidays (`src/holidays/special.ts`, `src/holidays/utils.ts`) -/

/-- `filterHolidaysForYear(holidays, year)`: keep holidays whose date's year
component equals `year`. -/
def filterHolidaysForYear (holidays : List Holiday) (year : Int) : List Holiday :=
  holidays.filter (fun holiday => decide (holiday.date.year = year))

/-- `getAllSpecialHolidays()`. -/
def getAllSpecialHolidays : List Holiday :=
  [ { date := ⟨2020, 5, 8⟩, name := "Tag der Befreiung",
      type := HolidayType.PUBLIC_HOLIDAY, bundeslaender := [Bundesland.BE],
      description :=
        some "75. Jahrestag der Befreiung vom Nationalsozialismus (einmalig)",
      isOneTime := true },
    { date := ⟨2025, 5, 8⟩, name := "Tag der Befreiung",
      type := HolidayType.PUBLIC_HOLIDAY, bundeslaender := [Bundesland.BE],
      description :=
        some "80. Jahrestag der Befreiung vom Nationalsozialismus (einmalig)",
      isOneTime := true },
    { date := ⟨2025, 6, 6⟩, name := "Einmaliger Sonderfeiertag",
      type := HolidayType.SPECIAL_HOLIDAY, bundeslaender := [],
      description :=
        some "Koordinierter Start des 24h-Lieferantenwechsels (GPKE)",
      isOneTime := true } ]

/-- `getSpecialHolidays(year)`. -/
def getSpecialHolidays (year : Int) : List Holiday :=
  filterHolidaysForYear getAllSpecialHolidays year

/-! ## Calendar provider (`calendar-provider.ts`)

The provider's per-year cache is semantically transparent (the computed map
is a pure function of the configuration and year), so the embedding works
with the uncached computation. -/

/-- The state of a `CalendarProvider` that working-day classification
depends on: the custom holidays and the `useSpecialHolidays` flag. -/
structure CalendarConfig where
  customHolidays : List Holiday
  useSpecialHolidays : Bool

/-- The provider constructed with no options: no custom holidays,
`useSpecialHolidays = true`. -/
def defaultCalendar : CalendarConfig :=
  { customHolidays := [], useSpecialHolidays := true }

/-- The list of holidays accumulated by `computeHolidays(year)` before it is
folded into the map: fixed, then moving, then special (filtered down to the
non-`SPECIAL_HOLIDAY` entries when `useSpecialHolidays` is off), then the
custom holidays of that year. -/
def computeHolidaysList (cfg : CalendarConfig) (year : Int) : List Holiday :=
  let specialHolidays := getSpecialHolidays year
  (getFixedHolidays year ++ getMovingHolidays year)
    ++ (if cfg.useSpecialHolidays then specialHolidays
        else specialHolidays.filter
          (fun holiday => decide (holiday.type ≠ HolidayType.SPECIAL_HOLIDAY)))
    ++ filterHolidaysForYear cfg.customHolidays year

/-- The `reduce((map, holiday) => map.set(holiday.date, holiday))` step of
`computeHolidays`, modelled by its lookup function: a later `set` on the
same date overrides an earlier one. -/
def buildHolidayMap (holidays : List Holiday) : Ymd → Option Holiday :=
  holidays.foldl
    (fun m holiday => fun d => if d = holiday.date then some holiday else m d)
    (fun _ => none)

/-- Lookup in the holiday map of a year (`getHolidaysForYear(year).get(d)`). -/
def holidayMapGet (cfg : CalendarConfig) (year : Int) (d : Ymd) : Option Holiday :=
  buildHolidayMap (computeHolidaysList cfg year) d

/-- `CalendarProvider.isHoliday(date)`: look the date up in the map of the
date's own year (`false` becomes `none`). -/
def isHoliday (cfg : CalendarConfig) (z : Int) : Option Holiday :=
  let d := civilFromDays z
  holidayMapGet cfg d.year d

/-- `CalendarProvider.isWorkingDay(date)`: not a weekend and not a holiday. -/
def isWorkingDay (cfg : CalendarConfig) (z : Int) : Bool :=
  if isWeekendDay z then false
  else if (isHoliday cfg z).isSome then false
  else true

/-- The `while (workingDaysAdded < workingDays)` loop of `addWorkingDays`,
with explicit fuel: each fuel step is one check of the loop condition.  The
source loop is unbounded; `none` means the fuel ran out before the loop
exited, and any `some` result is the loop's value (it is stable under
additional fuel). -/
def addWorkingDaysLoop (cfg : CalendarConfig) (workingDays : Nat) :
    Nat → Int → Nat → Option Int
  | 0, _, _ => none
  | fuel + 1, date, workingDaysAdded =>
    if workingDaysAdded < workingDays then
      let date' := date + 1
      let added' :=
        if isWorkingDay cfg date' then workingDaysAdded + 1 else workingDaysAdded
      addWorkingDaysLoop cfg workingDays fuel date' added'
    else
      some (date + 1)

/-- `CalendarProvider.addWorkingDays(startDate, workingDays)`: run the loop
from the start date with counter 0; on exit the loop returns the day after
the day it stopped on. -/
def addWorkingDays (cfg : CalendarConfig) (startDate : Int) (workingDays : Nat)
    (fuel : Nat) : Option Int :=
  addWorkingDaysLoop cfg workingDays fuel startDate 0

/-! ## Rules (`src/rules`) -/

inductive Commodity where
  | POWER
  | GAS
deriving DecidableEq, Repr

inductive UseCase where
  | RELOCATION
  | SWITCH
deriving DecidableEq, Repr

/-- The string value of the `Commodity` enum member. -/
def Commodity.toStr : Commodity → String
  | .POWER => "power"
  | .GAS => "gas"

/-- The string value of the `UseCase` enum member. -/
def UseCase.toStr : UseCase → String
  | .RELOCATION => "relocation"
  | .SWITCH => "switch"

structure DeadlineRule where
  id : String
  commodity : Commodity
  useCase : UseCase
  requiresTermination : Bool
  requiredWorkingDays : Nat
  allowsRetrospective : Bool
  maxRetrospectiveDays : Option Nat := none
  description : String
deriving DecidableEq, Repr

/-- `POWER_RULES` (`src/rules/power.ts`). -/
def POWER_RULES : List DeadlineRule :=
  [ { id := "power_relocation", commodity := Commodity.POWER,
      useCase := UseCase.RELOCATION, requiresTermination := false,
      requiredWorkingDays := 1, allowsRetrospective := false,
      description := "Power contract relocation requires 1 working day lead time" },
    { id := "power_switch_no_termination", commodity := Commodity.POWER,
      useCase := UseCase.SWITCH, requiresTermination := false,
      requiredWorkingDays := 1, allowsRetrospective := false,
      description :=
        "Power contract switch without termination requires 1 working day lead time" },
    { id := "power_switch_with_termination", commodity := Commodity.POWER,
      useCase := UseCase.SWITCH, requiresTermination := true,
      requiredWorkingDays := 2, allowsRetrospective := false,
      description :=
        "Power contract switch with termination requires 2 working days lead time" } ]

/-- `GAS_RULES` (`src/rules/gas.ts`). -/
def GAS_RULES : List DeadlineRule :=
  [ { id := "gas_relocation", commodity := Commodity.GAS,
      useCase := UseCase.RELOCATION, requiresTermination := false,
      requiredWorkingDays := 0, allowsRetrospective := true,
      maxRetrospectiveDays := some (6 * 7),
      description :=
        "Retrospective switching of gas contracts for move-ins and new registrations" },
    { id := "gas_switch_no_termination", commodity := Commodity.GAS,
      useCase := UseCase.SWITCH, requiresTermination := false,
      requiredWorkingDays := 10, allowsRetrospective := false,
      description :=
        "Gas contract switch without termination requires 10 working days lead time" },
    { id := "gas_switch_with_termination", commodity := Commodity.GAS,
      useCase := UseCase.SWITCH, requiresTermination := true,
      requiredWorkingDays := 13, allowsRetrospective := false,
      description :=
        "Gas contract switch with termination requires 13 working days lead time" } ]

/-- `DEFAULT_DEADLINE_RULES`: power rules, then gas rules. -/
def DEFAULT_DEADLINE_RULES : List DeadlineRule :=
  POWER_RULES ++ GAS_RULES

/-- Whether a rule matches a (commodity, useCase, requiresTermination)
triple exactly. -/
def ruleMatches (rule : DeadlineRule) (commodity : Commodity)
    (useCase : UseCase) (requiresTermination : Bool) : Bool :=
  decide (rule.commodity = commodity) && decide (rule.useCase = useCase) &&
    decide (rule.requiresTermination = requiresTermination)

/-- `findApplicableRule(commodity, useCase, requiresTermination, rules)`:
first rule in table order whose triple matches exactly; `undefined`
(`none`) when no rule matches. -/
def findApplicableRule (commodity : Commodity) (useCase : UseCase)
    (requiresTermination : Bool) (rules : List DeadlineRule) :
    Option DeadlineRule :=
  rules.find? (fun rule => ruleMatches rule commodity useCase requiresTermination)

/-! ## Deadline calculator (`deadlines-calculator.ts`) -/

structure SwitchingCase where
  commodity : Commodity
  useCase : UseCase
  requiresTermination : Bool
deriving DecidableEq, Repr

/-- The message of the error thrown by `calculateEarliestStartDate` when no
rule matches. -/
def ruleNotFoundMessage (sc : SwitchingCase) : String :=
  "No rule found for " ++ sc.commodity.toStr ++ " " ++ sc.useCase.toStr ++ " "
    ++ (if sc.requiresTermination then "with" else "without") ++ " termination"

/-- The record returned by `calculateEarliestStartDate` (dates as day
numbers; `earliestStartDateString` is determined by `earliestStartDate`
through `toISODateString` and is not duplicated here). -/
structure EarliestStartResult where
  earliestStartDate : Int
  workingDaysApplied : Nat
  calendarDaysTotal : Int
  isRetrospective : Bool
  ruleApplied : DeadlineRule
deriving DecidableEq, Repr

/-- `DeadlineCalculator.calculateEarliestStartDate(switchingCase, fromDate)`
for a calculator with rule table `rules` and calendar `cfg`.
`Except.error` is the thrown rule-not-found error; `Except.ok none` is the
embedding artifact of the working-day loop running out of fuel. -/
def calculateEarliestStartDate (rules : List DeadlineRule)
    (cfg : CalendarConfig) (sc : SwitchingCase) (fromDate : Int)
    (fuel : Nat) : Except String (Option EarliestStartResult) :=
  match findApplicableRule sc.commodity sc.useCase sc.requiresTermination rules with
  | none => Except.error (ruleNotFoundMessage sc)
  | some rule =>
    if rule.allowsRetrospective then
      let earliestStartDate := fromDate - (rule.maxRetrospectiveDays.getD 0 : Int)
      Except.ok (some
        { earliestStartDate := earliestStartDate
          workingDaysApplied := 0
          calendarDaysTotal := earliestStartDate - fromDate
          isRetrospective := true
          ruleApplied := rule })
    else
      match addWorkingDays cfg fromDate rule.requiredWorkingDays fuel with
      | none => Except.ok none
      | some earliestStartDate =>
        Except.ok (some
          { earliestStartDate := earliestStartDate
            workingDaysApplied := rule.requiredWorkingDays
            calendarDaysTotal := earliestStartDate - fromDate
            isRetrospective := false
            ruleApplied := rule })

/-- The record returned by `validateStartDate`. -/
structure ValidationResult where
  isValid : Bool
  earliestValidDate : Option Int
  ruleApplied : DeadlineRule
deriving DecidableEq, Repr

/-- `DeadlineCalculator.validateStartDate(switchingCase, proposedDate,
fromDate)`: valid iff the proposed date is on or after the computed
earliest date; when invalid, the earliest date is returned as the
suggested correction. -/
def validateStartDate (rules : List DeadlineRule) (cfg : CalendarConfig)
    (sc : SwitchingCase) (proposedDate : Int) (fromDate : Int)
    (fuel : Nat) : Except String (Option ValidationResult) :=
  match calculateEarliestStartDate rules cfg sc fromDate fuel with
  | Except.error e => Except.error e
  | Except.ok none => Except.ok none
  | Except.ok (some res) =>
    let isValid := decide (res.earliestStartDate ≤ proposedDate)
    Except.ok (some
      { isValid := isValid
        earliestValidDate := if isValid then none else some res.earliestStartDate
        ruleApplied := res.ruleApplied })

/-! ## Specification-side helper definitions -/

/-- The last holiday of a list carrying a given date, i.e. the entry a
JavaScript `Map` built by successive `set`s holds for that key. -/
def lastOn (holidays : List Holiday) (d : Ymd) : Option Holiday :=
  holidays.reverse.find? (fun holiday => decide (d = holiday.date))

/-- Number of working days among the `k` calendar days strictly after
`start` (the days `start + 1, ..., start + k`). -/
def workingCountUpTo (cfg : CalendarConfig) (start : Int) (k : Nat) : Nat :=
  (List.range k).countP (fun i : Nat => isWorkingDay cfg (start + (i : Int) + 1))

/-- Two holidays that agree on everything except their region
(`bundeslaender`) list. -/
def sameModuloRegions (h1 h2 : Holiday) : Prop :=
  h1.date = h2.date ∧ h1.name = h2.name ∧ h1.type = h2.type ∧
    h1.description = h2.description ∧ h1.isOneTime = h2.isOneTime

/-! ## Holiday-map lemmas -/

theorem lastOn_nil (d : Ymd) : lastOn [] d = none := rfl

theorem lastOn_cons (h : Holiday) (t : List Holiday) (d : Ymd) :
    lastOn (h :: t) d
      = (lastOn t d).or (if d = h.date then some h else none) := by
  simp only [lastOn, List.reverse_cons, List.find?_append]
  cases t.reverse.find? (fun holiday => decide (d = holiday.date)) with
  | none =>
    by_cases hd : d = h.date <;> simp [List.find?, hd, Option.or]
  | some h' => simp [Option.or]

theorem lastOn_append (xs ys : List Holiday) (d : Ymd) :
    lastOn (xs ++ ys) d = (lastOn ys d).or (lastOn xs d) := by
  simp only [lastOn, List.reverse_append, List.find?_append]

theorem lastOn_isSome (holidays : List Holiday) (d : Ymd) :
    (lastOn holidays d).isSome ↔ ∃ h ∈ holidays, d = h.date := by
  simp [lastOn, List.find?_isSome]

theorem buildHolidayMap_from_apply (holidays : List Holiday)
    (m : Ymd → Option Holiday) (d : Ymd) :
    holidays.foldl
        (fun m holiday => fun x => if x = holiday.date then some holiday else m x)
        m d
      = (lastOn holidays d).elim (m d) some := by
  induction holidays generalizing m with
  | nil => simp [lastOn_nil]
  | cons h t ih =>
    rw [List.foldl_cons, ih, lastOn_cons]
    cases hlast : lastOn t d with
    | some h' => simp [Option.or]
    | none => by_cases hd : d = h.date <;> simp [hd, Option.or]

theorem buildHolidayMap_eq_lastOn (holidays : List Holiday) (d : Ymd) :
    buildHolidayMap holidays d = lastOn holidays d := by
  rw [buildHolidayMap, buildHolidayMap_from_apply]
  cases lastOn holidays d <;> simp

/-! ## Region-blindness lemmas -/

theorem sameModuloRegions_refl_list (l : List Holiday) :
    List.Forall₂ sameModuloRegions l l :=
  List.forall₂_same.mpr (fun _ _ => ⟨rfl, rfl, rfl, rfl, rfl⟩)

theorem forall₂_filterHolidaysForYear {l1 l2 : List Holiday}
    (h : List.Forall₂ sameModuloRegions l1 l2) (year : Int) :
    List.Forall₂ sameModuloRegions
      (filterHolidaysForYear l1 year) (filterHolidaysForYear l2 year) := by
  induction h with
  | nil => exact List.Forall₂.nil
  | cons hr _ ih =>
    simp only [filterHolidaysForYear, List.filter_cons] at ih ⊢
    rw [hr.1]
    split
    · exact List.Forall₂.cons hr ih
    · exact ih

theorem lastOn_isSome_congr {l1 l2 : List Holiday}
    (h : List.Forall₂ sameModuloRegions l1 l2) (d : Ymd) :
    (lastOn l1 d).isSome = (lastOn l2 d).isSome := by
  induction h with
  | nil => rfl
  | @cons a b t1 t2 hr ht ih =>
    rw [lastOn_cons, lastOn_cons, hr.1, Option.isSome_or, Option.isSome_or, ih]
    by_cases hd : d = b.date <;> simp [hd]

theorem forall₂_computeHolidaysList {custom1 custom2 : List Holiday}
    (h : List.Forall₂ sameModuloRegions custom1 custom2) (useSpecial : Bool)
    (year : Int) :
    List.Forall₂ sameModuloRegions
      (computeHolidaysList ⟨custom1, useSpecial⟩ year)
      (computeHolidaysList ⟨custom2, useSpecial⟩ year) := by
  unfold computeHolidaysList
  exact List.rel_append
    (List.rel_append (sameModuloRegions_refl_list _) (sameModuloRegions_refl_list _))
    (forall₂_filterHolidaysForYear h year)

theorem isHoliday_isSome_congr {custom1 custom2 : List Holiday}
    (h : List.Forall₂ sameModuloRegions custom1 custom2) (useSpecial : Bool)
    (z : Int) :
    (isHoliday ⟨custom1, useSpecial⟩ z).isSome
      = (isHoliday ⟨custom2, useSpecial⟩ z).isSome := by
  unfold isHoliday holidayMapGet
  rw [buildHolidayMap_eq_lastOn, buildHolidayMap_eq_lastOn]
  exact lastOn_isSome_congr (forall₂_computeHolidaysList h useSpecial _) _

/-! ## Working-day-loop lemmas -/

theorem workingCountUpTo_zero (cfg : CalendarConfig) (start : Int) :
    workingCountUpTo cfg start 0 = 0 := rfl

theorem workingCountUpTo_succ (cfg : CalendarConfig) (start : Int) (k : Nat) :
    workingCountUpTo cfg start (k + 1)
      = workingCountUpTo cfg start k
        + (if isWorkingDay cfg (start + (k : Int) + 1) then 1 else 0) := by
  unfold workingCountUpTo
  rw [List.range_succ, List.countP_append]
  simp [List.countP_cons]

theorem addWorkingDaysLoop_spec (cfg : CalendarConfig) (n : Nat) (start r : Int) :
    ∀ (fuel k added : Nat),
      added = workingCountUpTo cfg start k →
      added ≤ n →
      (added = n →
        (n = 0 ∧ k = 0) ∨
          (0 < n ∧ 0 < k ∧ isWorkingDay cfg (start + (k : Int)))) →
      addWorkingDaysLoop cfg n fuel (start + (k : Int)) added = some r →
      (n = 0 → r = start + 1) ∧
      (0 < n → ∃ k' : Nat, r = start + (k' : Int) + 1 ∧ 0 < k' ∧
        isWorkingDay cfg (start + (k' : Int)) ∧
        workingCountUpTo cfg start k' = n) := by
  intro fuel
  induction fuel with
  | zero =>
    intro k added _ _ _ hrun
    simp [addWorkingDaysLoop] at hrun
  | succ fuel ih =>
    intro k added hcount hle hinv hrun
    rw [addWorkingDaysLoop] at hrun
    by_cases hlt : added < n
    · rw [if_pos hlt] at hrun
      have hcast : start + (k : Int) + 1 = start + ((k + 1 : Nat) : Int) := by
        push_cast
        ring
      rw [hcast] at hrun
      refine ih (k + 1)
        (if isWorkingDay cfg (start + ((k + 1 : Nat) : Int)) then added + 1 else added)
        ?_ ?_ ?_ hrun
      · rw [workingCountUpTo_succ, ← hcount, ← hcast]
        split <;> omega
      · split <;> omega
      · intro hadded
        split at hadded
        · right
          refine ⟨by omega, by omega, ?_⟩
          next hw => exact hw
        · omega
    · rw [if_neg hlt] at hrun
      have hr : r = start + (k : Int) + 1 := by
        simpa using hrun.symm
      have hn : added = n := by omega
      rcases hinv hn with ⟨hn0, hk0⟩ | ⟨hnpos, hkpos, hwork⟩
      · subst hn0 hk0
        constructor
        · intro _
          simp at hr
          omega
        · intro hc
          omega
      · constructor
        · intro hc
          omega
        · intro _
          exact ⟨k, hr, hkpos, hwork, by omega⟩

/-! ## Claim theorems -/

/-- Claim C2 counterexample: the fixed-holiday catalog does not return 12
holidays; already for 2025 it returns 13 (the claim's count omits one of
the thirteen hard-coded entries). -/
theorem claim_C2_fixedHolidays_counterexample :
    ¬ (getFixedHolidays 2025).length = 12 := by
  decide

/-- Claim C2 (amended): for every year, the fixed-holiday catalog returns
exactly 13 holidays with hard-coded month/day, exactly two of which are
`OPERATIONAL_HOLIDAY` entries dated December 24 and December 31 of that
year with an empty (nationwide) region list. -/
theorem claim_C2_fixedHolidays (year : Int) :
    (getFixedHolidays year).length = 13 ∧
    (getFixedHolidays year).filter
        (fun h => decide (h.type = HolidayType.OPERATIONAL_HOLIDAY))
      = [ { date := ⟨year, 12, 24⟩, name := "Heiligabend",
            type := HolidayType.OPERATIONAL_HOLIDAY, bundeslaender := [],
            description := some "Genereller Feiertag nach GPKE/GeLi Gas" },
          { date := ⟨year, 12, 31⟩, name := "Silvester",
            type := HolidayType.OPERATIONAL_HOLIDAY, bundeslaender := [],
            description := some "Genereller Feiertag nach GPKE/GeLi Gas" } ] :=
  ⟨rfl, rfl⟩

/-- Claim C3: for every year, the computed Day of Repentance and Prayer is a
Wednesday strictly before November 23 of that year (within the preceding
seven days, and when November 23 is itself a Wednesday the result is one
week earlier, never November 23); for 2025 it is 2025-11-19 and for 2026 it
is 2026-11-18. -/
theorem claim_C3_dayOfRepentance :
    (∀ year : Int,
      weekdayOf (dayOfRepentanceDay year) = 3 ∧
      dayOfRepentanceDay year < daysFromCivil year 11 23 ∧
      daysFromCivil year 11 23 - dayOfRepentanceDay year ≤ 7 ∧
      (weekdayOf (daysFromCivil year 11 23) = 3 →
        dayOfRepentanceDay year = daysFromCivil year 11 23 - 7)) ∧
    dayOfRepentanceDay 2025 = daysFromCivil 2025 11 19 ∧
    dayOfRepentanceDay 2026 = daysFromCivil 2026 11 18 := by
  refine ⟨?_, by decide, by decide⟩
  intro year
  simp only [dayOfRepentanceDay, previousWednesday, weekdayOf]
  split_ifs with hif <;>
    exact ⟨by omega, by omega, by omega, fun hw => by omega⟩

/-- Claim C3 witness: in 2022 November 23 itself falls on a Wednesday, and
the computed day is one week earlier. -/
theorem claim_C3_dayOfRepentance_witness :
    dayOfRepentanceDay 2022 = daysFromCivil 2022 11 23 - 7 :=
  ((claim_C3_dayOfRepentance.1 2022).2.2.2) (by decide)

/-- Claim C6: for every year, the moving-holiday catalog derives from Easter
Sunday exactly Good Friday (−2d), Easter Sunday, Easter Monday (+1d),
Ascension (+39d), Whit Sunday (+49d), Whit Monday (+50d) and Corpus Christi
(+60d) — all with empty (nationwide) region lists except the
region-restricted Corpus Christi — besides the separately computed Day of
Repentance; Good Friday 2025 is 2025-04-18 and Easter Monday 2025 is
2025-04-21. -/
theorem claim_C6_movingHolidays :
    (∀ year : Int,
      (getMovingHolidays year).map Holiday.date
        = [ civilFromDays (easterSundayDay year - 2),
            civilFromDays (easterSundayDay year),
            civilFromDays (easterSundayDay year + 1),
            civilFromDays (easterSundayDay year + 39),
            civilFromDays (easterSundayDay year + 49),
            civilFromDays (easterSundayDay year + 50),
            civilFromDays (easterSundayDay year + 60),
            civilFromDays (dayOfRepentanceDay year) ] ∧
      (getMovingHolidays year).map Holiday.name
        = ["Karfreitag", "Ostersonntag", "Ostermontag", "Christi Himmelfahrt",
           "Pfingstsonntag", "Pfingstmontag", "Fronleichnam", "Buß- und Bettag"] ∧
      (getMovingHolidays year).map Holiday.bundeslaender
        = [[], [], [], [], [], [],
           [Bundesland.BW, Bundesland.BY, Bundesland.HE, Bundesland.NW,
            Bundesland.RP, Bundesland.SL],
           [Bundesland.SN]]) ∧
    civilFromDays (easterSundayDay 2025 - 2) = ⟨2025, 4, 18⟩ ∧
    civilFromDays (easterSundayDay 2025 + 1) = ⟨2025, 4, 21⟩ :=
  ⟨fun _ => ⟨rfl, rfl, rfl⟩, by decide, by decide⟩

/-- Claim C1: whenever `addWorkingDays(start, n)` returns, the result is the
calendar day immediately following the nth qualifying working day after
`start` (one day past the nth working day, not the nth working day itself),
and for `n = 0` it is `start` plus one calendar day; in particular,
`addWorkingDays('2025-10-01', 2)` under the default calendar equals
2025-10-07. -/
theorem claim_C1_addWorkingDays :
    (∀ (cfg : CalendarConfig) (start : Int) (n fuel : Nat) (r : Int),
      addWorkingDays cfg start n fuel = some r →
      (n = 0 → r = start + 1) ∧
      (0 < n → ∃ k : Nat, r = start + (k : Int) + 1 ∧ 0 < k ∧
        isWorkingDay cfg (start + (k : Int)) ∧
        workingCountUpTo cfg start k = n)) ∧
    addWorkingDays defaultCalendar (daysFromCivil 2025 10 1) 2 10
      = some (daysFromCivil 2025 10 7) := by
  constructor
  · intro cfg start n fuel r h
    rw [addWorkingDays] at h
    refine addWorkingDaysLoop_spec cfg n start r fuel 0 0 rfl (Nat.zero_le n)
      (fun h0 => Or.inl ⟨h0.symm, rfl⟩) ?_
    simpa using h
  · decide

/-- Claim C1 witness: the universal part applied to the default calendar at
start 2025-10-01 with n = 2, fuel 10 and result 2025-10-07: 2025-10-06 is
the 2nd working day after the start, and the result is one day past it. -/
theorem claim_C1_addWorkingDays_witness :
    ∃ k : Nat, daysFromCivil 2025 10 7 = daysFromCivil 2025 10 1 + (k : Int) + 1 ∧
      0 < k ∧ isWorkingDay defaultCalendar (daysFromCivil 2025 10 1 + (k : Int)) ∧
      workingCountUpTo defaultCalendar (daysFromCivil 2025 10 1) k = 2 :=
  (claim_C1_addWorkingDays.1 defaultCalendar (daysFromCivil 2025 10 1) 2 10
      (daysFromCivil 2025 10 7) (by decide)).2 (by decide)

/-- Claim C4: for the GAS/RELOCATION/requiresTermination=false case,
`calculateEarliestStartDate` returns the earliest date `fromDate` minus the
rule's `maxRetrospectiveDays` (42) in plain calendar days, with
`workingDaysApplied = 0` and `isRetrospective = true`; from 2025-10-01 the
earliest date is 2025-08-20. -/
theorem claim_C4_gasRelocation :
    (∀ (fromDate : Int) (fuel : Nat),
      calculateEarliestStartDate DEFAULT_DEADLINE_RULES defaultCalendar
          ⟨Commodity.GAS, UseCase.RELOCATION, false⟩ fromDate fuel
        = Except.ok (some
            { earliestStartDate := fromDate - 42
              workingDaysApplied := 0
              calendarDaysTotal := fromDate - 42 - fromDate
              isRetrospective := true
              ruleApplied :=
                { id := "gas_relocation", commodity := Commodity.GAS,
                  useCase := UseCase.RELOCATION, requiresTermination := false,
                  requiredWorkingDays := 0, allowsRetrospective := true,
                  maxRetrospectiveDays := some 42,
                  description :=
                    "Retrospective switching of gas contracts for move-ins and new registrations" } })) ∧
    daysFromCivil 2025 10 1 - 42 = daysFromCivil 2025 8 20 :=
  ⟨fun _ _ => rfl, by decide⟩

/-- Claim C7: for every switching case with a matching rule, every proposed
date and every `fromDate`, `validateStartDate` is valid exactly when the
proposed date is on or after the earliest start date computed by
`calculateEarliestStartDate` (inclusive), and when invalid it returns that
earliest date as `earliestValidDate`; for POWER/SWITCH/requiresTermination=
true, proposed 2025-10-02 from 2025-10-01, the result is invalid with
`earliestValidDate` 2025-10-07. -/
theorem claim_C7_validateStartDate :
    (∀ (rules : List DeadlineRule) (cfg : CalendarConfig) (sc : SwitchingCase)
        (proposedDate fromDate : Int) (fuel : Nat) (res : EarliestStartResult),
      calculateEarliestStartDate rules cfg sc fromDate fuel
          = Except.ok (some res) →
      validateStartDate rules cfg sc proposedDate fromDate fuel
        = Except.ok (some
            { isValid := decide (res.earliestStartDate ≤ proposedDate)
              earliestValidDate :=
                if decide (res.earliestStartDate ≤ proposedDate) then none
                else some res.earliestStartDate
              ruleApplied := res.ruleApplied })) ∧
    validateStartDate DEFAULT_DEADLINE_RULES defaultCalendar
        ⟨Commodity.POWER, UseCase.SWITCH, true⟩
        (daysFromCivil 2025 10 2) (daysFromCivil 2025 10 1) 10
      = Except.ok (some
          { isValid := false
            earliestValidDate := some (daysFromCivil 2025 10 7)
            ruleApplied :=
              { id := "power_switch_with_termination",
                commodity := Commodity.POWER, useCase := UseCase.SWITCH,
                requiresTermination := true, requiredWorkingDays := 2,
                allowsRetrospective := false,
                description :=
                  "Power contract switch with termination requires 2 working days lead time" } }) := by
  constructor
  · intro rules cfg sc proposedDate fromDate fuel res h
    simp only [validateStartDate, h]
  · rfl

/-- Claim C7 witness: the universal part applied at the default rules and
calendar for POWER/SWITCH/true, proposed 2025-10-02 from 2025-10-01, with
the concrete earliest-start result computed there. -/
theorem claim_C7_validateStartDate_witness :
    validateStartDate DEFAULT_DEADLINE_RULES defaultCalendar
        ⟨Commodity.POWER, UseCase.SWITCH, true⟩
        (daysFromCivil 2025 10 2) (daysFromCivil 2025 10 1) 10
      = Except.ok (some
          { isValid := decide
              ((({ earliestStartDate := daysFromCivil 2025 10 7
                   workingDaysApplied := 2
                   calendarDaysTotal := 6
                   isRetrospective := false
                   ruleApplied :=
                     { id := "power_switch_with_termination",
                       commodity := Commodity.POWER, useCase := UseCase.SWITCH,
                       requiresTermination := true, requiredWorkingDays := 2,
                       allowsRetrospective := false,
                       description :=
                         "Power contract switch with termination requires 2 working days lead time" } } :
                  EarliestStartResult)).earliestStartDate ≤ daysFromCivil 2025 10 2)
            earliestValidDate :=
              if decide
                  ((({ earliestStartDate := daysFromCivil 2025 10 7
                       workingDaysApplied := 2
                       calendarDaysTotal := 6
                       isRetrospective := false
                       ruleApplied :=
                         { id := "power_switch_with_termination",
                           commodity := Commodity.POWER, useCase := UseCase.SWITCH,
                           requiresTermination := true, requiredWorkingDays := 2,
                           allowsRetrospective := false,
                           description :=
                             "Power contract switch with termination requires 2 working days lead time" } } :
                      EarliestStartResult)).earliestStartDate ≤ daysFromCivil 2025 10 2)
                then none
                else some (daysFromCivil 2025 10 7)
            ruleApplied :=
              { id := "power_switch_with_termination",
                commodity := Commodity.POWER, useCase := UseCase.SWITCH,
                requiresTermination := true, requiredWorkingDays := 2,
                allowsRetrospective := false,
                description :=
                  "Power contract switch with termination requires 2 working days lead time" } }) :=
  claim_C7_validateStartDate.1 DEFAULT_DEADLINE_RULES defaultCalendar
    ⟨Commodity.POWER, UseCase.SWITCH, true⟩
    (daysFromCivil 2025 10 2) (daysFromCivil 2025 10 1) 10
    { earliestStartDate := daysFromCivil 2025 10 7
      workingDaysApplied := 2
      calendarDaysTotal := 6
      isRetrospective := false
      ruleApplied :=
        { id := "power_switch_with_termination",
          commodity := Commodity.POWER, useCase := UseCase.SWITCH,
          requiresTermination := true, requiredWorkingDays := 2,
          allowsRetrospective := false,
          description :=
            "Power contract switch with termination requires 2 working days lead time" } }
    (by rfl)

theorem find?_first_decomp {α : Type} (p : α → Bool) :
    ∀ (l : List α) (a : α), l.find? p = some a →
      p a = true ∧ ∃ l1 l2, l = l1 ++ a :: l2 ∧ ∀ x ∈ l1, p x = false := by
  intro l
  induction l with
  | nil =>
    intro a h
    simp at h
  | cons x t ih =>
    intro a h
    cases hx : p x with
    | true =>
      rw [List.find?_cons_of_pos _ hx] at h
      obtain rfl : x = a := by simpa using h
      exact ⟨hx, [], t, rfl, by simp⟩
    | false =>
      rw [List.find?_cons_of_neg _ (by simp [hx])] at h
      obtain ⟨hp, l1, l2, rfl, hpre⟩ := ih a h
      refine ⟨hp, x :: l1, l2, rfl, ?_⟩
      intro y hy
      rcases List.mem_cons.mp hy with rfl | hy'
      · exact hx
      · exact hpre y hy'

/-- Claim C8: rule lookup returns the first rule in table order whose
(commodity, useCase, requiresTermination) triple matches exactly, and no
rule (`none`, without raising) when none matches; `calculateEarliestStartDate`
fails with the descriptive rule-not-found error naming the unmatched
combination exactly when lookup returns no rule, and otherwise applies the
found rule (never silently defaults). -/
theorem claim_C8_ruleLookup :
    (∀ (rules : List DeadlineRule) (c : Commodity) (u : UseCase) (t : Bool),
      (findApplicableRule c u t rules = none ↔
        ∀ r ∈ rules, ruleMatches r c u t = false) ∧
      (∀ r, findApplicableRule c u t rules = some r →
        ruleMatches r c u t = true ∧
        ∃ pre post, rules = pre ++ r :: post ∧
          ∀ r' ∈ pre, ruleMatches r' c u t = false)) ∧
    (∀ (rules : List DeadlineRule) (cfg : CalendarConfig) (sc : SwitchingCase)
        (fromDate : Int) (fuel : Nat),
      (calculateEarliestStartDate rules cfg sc fromDate fuel
          = Except.error (ruleNotFoundMessage sc) ↔
        findApplicableRule sc.commodity sc.useCase sc.requiresTermination rules
          = none) ∧
      (∀ e, calculateEarliestStartDate rules cfg sc fromDate fuel
          = Except.error e → e = ruleNotFoundMessage sc) ∧
      (∀ r res, findApplicableRule sc.commodity sc.useCase sc.requiresTermination
            rules = some r →
        calculateEarliestStartDate rules cfg sc fromDate fuel
            = Except.ok (some res) →
        res.ruleApplied = r)) := by
  constructor
  · intro rules c u t
    constructor
    · rw [findApplicableRule, List.find?_eq_none]
      simp
    · intro r h
      exact find?_first_decomp _ rules r h
  · intro rules cfg sc fromDate fuel
    cases hf : findApplicableRule sc.commodity sc.useCase sc.requiresTermination rules with
    | none =>
      refine ⟨by simp [calculateEarliestStartDate, hf], ?_, ?_⟩
      · intro e he
        simp only [calculateEarliestStartDate, hf] at he
        injection he with h1
        exact h1.symm
      · intro r res hr
        exact absurd hr (by simp)
    | some rule =>
      refine ⟨?_, ?_, ?_⟩
      · simp only [calculateEarliestStartDate, hf]
        constructor
        · intro he
          exfalso
          split at he
          · exact Except.noConfusion he
          · split at he <;> exact Except.noConfusion he
        · intro hc
          exact Option.noConfusion hc
      · intro e he
        exfalso
        simp only [calculateEarliestStartDate, hf] at he
        split at he
        · exact Except.noConfusion he
        · split at he <;> exact Except.noConfusion he
      · intro r res hr hcalc
        have hrr : rule = r := by
          injection hr
        simp only [calculateEarliestStartDate, hf] at hcalc
        split at hcalc
        · injection hcalc with h1
          injection h1 with h2
          rw [← h2, ← hrr]
        · split at hcalc
          · injection hcalc with h1
            exact Option.noConfusion h1
          · injection hcalc with h1
            injection h1 with h2
            rw [← h2, ← hrr]

/-- Claim C8 witness: the default table has no POWER/RELOCATION/
requiresTermination=true rule, and the calculator fails with exactly the
descriptive message for that combination. -/
theorem claim_C8_ruleLookup_witness :
    calculateEarliestStartDate DEFAULT_DEADLINE_RULES defaultCalendar
        ⟨Commodity.POWER, UseCase.RELOCATION, true⟩ 0 0
      = Except.error
          (ruleNotFoundMessage ⟨Commodity.POWER, UseCase.RELOCATION, true⟩) :=
  ((claim_C8_ruleLookup.2 DEFAULT_DEADLINE_RULES defaultCalendar
      ⟨Commodity.POWER, UseCase.RELOCATION, true⟩ 0 0).1).mpr (by rfl)

/-- Claim C9: the year's holiday map holds, for every date, the entry from
the latest source in the insertion order fixed → moving → special → custom
(the last list element with that date), so a custom holiday for that year
overrides any catalog holiday on the same date. -/
theorem claim_C9_lastSourceWins :
    (∀ (cfg : CalendarConfig) (year : Int) (d : Ymd),
      holidayMapGet cfg year d = lastOn (computeHolidaysList cfg year) d) ∧
    (∀ (cfg : CalendarConfig) (year : Int) (d : Ymd) (h : Holiday),
      lastOn (filterHolidaysForYear cfg.customHolidays year) d = some h →
      holidayMapGet cfg year d = some h) := by
  constructor
  · intro cfg year d
    exact buildHolidayMap_eq_lastOn _ _
  · intro cfg year d h hcustom
    rw [holidayMapGet, buildHolidayMap_eq_lastOn]
    simp only [computeHolidaysList]
    rw [lastOn_append, hcustom]
    rfl

/-- Claim C9 witness: a custom holiday dated 2025-10-03 overrides the fixed
German Unity Day entry of the same date in the 2025 map. -/
theorem claim_C9_lastSourceWins_witness :
    holidayMapGet
        ⟨[{ date := ⟨2025, 10, 3⟩, name := "Betriebsruhetag",
            type := HolidayType.SPECIAL_HOLIDAY, bundeslaender := [],
            description := none, isOneTime := false }], true⟩
        2025 ⟨2025, 10, 3⟩
      = some
          { date := ⟨2025, 10, 3⟩, name := "Betriebsruhetag",
            type := HolidayType.SPECIAL_HOLIDAY, bundeslaender := [],
            description := none, isOneTime := false } :=
  claim_C9_lastSourceWins.2
    ⟨[{ date := ⟨2025, 10, 3⟩, name := "Betriebsruhetag",
        type := HolidayType.SPECIAL_HOLIDAY, bundeslaender := [],
        description := none, isOneTime := false }], true⟩
    2025 ⟨2025, 10, 3⟩
    { date := ⟨2025, 10, 3⟩, name := "Betriebsruhetag",
      type := HolidayType.SPECIAL_HOLIDAY, bundeslaender := [],
      description := none, isOneTime := false }
    (by rfl)

/-- Claim C10: with `useSpecialHolidays = false`, library special-list
entries whose type is not `SPECIAL_HOLIDAY` (e.g. the one-time
`PUBLIC_HOLIDAY` entries for 2020-05-08 and 2025-05-08) are still included
in the year's holiday map and classified non-working; only entries of type
`SPECIAL_HOLIDAY` (the 2025-06-06 entry) are excluded. -/
theorem claim_C10_specialFilter :
    (∀ (customs : List Holiday) (year : Int) (h : Holiday),
      h ∈ getSpecialHolidays year → h.type ≠ HolidayType.SPECIAL_HOLIDAY →
      (holidayMapGet ⟨customs, false⟩ year h.date).isSome) ∧
    isWorkingDay ⟨[], false⟩ (daysFromCivil 2020 5 8) = false ∧
    isWorkingDay ⟨[], false⟩ (daysFromCivil 2025 5 8) = false ∧
    (isHoliday ⟨[], false⟩ (daysFromCivil 2025 5 8)).isSome = true ∧
    holidayMapGet ⟨[], false⟩ 2025 ⟨2025, 6, 6⟩ = none ∧
    isWorkingDay ⟨[], false⟩ (daysFromCivil 2025 6 6) = true := by
  refine ⟨?_, by decide, by decide, by decide, by decide, by decide⟩
  intro customs year h hmem htype
  rw [holidayMapGet, buildHolidayMap_eq_lastOn, lastOn_isSome]
  refine ⟨h, ?_, rfl⟩
  simp only [computeHolidaysList]
  refine List.mem_append_left _ (List.mem_append_right _ ?_)
  exact List.mem_filter.mpr ⟨hmem, decide_eq_true htype⟩

/-- Claim C10 witness: the universal part applied to the one-time 2025-05-08
`PUBLIC_HOLIDAY` special entry with no custom holidays. -/
theorem claim_C10_specialFilter_witness :
    (holidayMapGet ⟨[], false⟩ 2025
        (Holiday.date
          { date := ⟨2025, 5, 8⟩, name := "Tag der Befreiung",
            type := HolidayType.PUBLIC_HOLIDAY,
            bundeslaender := [Bundesland.BE],
            description :=
              some "80. Jahrestag der Befreiung vom Nationalsozialismus (einmalig)",
            isOneTime := true })).isSome :=
  claim_C10_specialFilter.1 [] 2025
    { date := ⟨2025, 5, 8⟩, name := "Tag der Befreiung",
      type := HolidayType.PUBLIC_HOLIDAY, bundeslaender := [Bundesland.BE],
      description :=
        some "80. Jahrestag der Befreiung vom Nationalsozialismus (einmalig)",
      isOneTime := true }
    (by decide) (by decide)

/-- Claim C5: working-day classification never consults a holiday's region
list: any date with an entry in its year's holiday map is non-working, and
two configurations that differ only in the `bundeslaender` fields of their
holidays classify every date identically under `isHoliday` and
`isWorkingDay`. -/
theorem claim_C5_regionBlind :
    (∀ (cfg : CalendarConfig) (z : Int),
      (holidayMapGet cfg (civilFromDays z).year (civilFromDays z)).isSome →
      isWorkingDay cfg z = false) ∧
    (∀ (custom1 custom2 : List Holiday) (useSpecial : Bool),
      List.Forall₂ sameModuloRegions custom1 custom2 →
      ∀ z : Int,
        (isHoliday ⟨custom1, useSpecial⟩ z).isSome
          = (isHoliday ⟨custom2, useSpecial⟩ z).isSome ∧
        isWorkingDay ⟨custom1, useSpecial⟩ z
          = isWorkingDay ⟨custom2, useSpecial⟩ z) := by
  constructor
  · intro cfg z h
    simp only [isWorkingDay, isHoliday, h]
    simp
  · intro custom1 custom2 useSpecial hrel z
    have hh := isHoliday_isSome_congr hrel useSpecial z
    refine ⟨hh, ?_⟩
    simp only [isWorkingDay]
    rw [hh]

/-- Claim C5 witness: a custom holiday restricted to Bavaria and the same
holiday with no region restriction classify its date identically. -/
theorem claim_C5_regionBlind_witness :
    (isHoliday
        ⟨[{ date := ⟨2030, 1, 2⟩, name := "Werksferien",
            type := HolidayType.PUBLIC_HOLIDAY,
            bundeslaender := [Bundesland.BY],
            description := none, isOneTime := false }], true⟩
        (daysFromCivil 2030 1 2)).isSome
      = (isHoliday
          ⟨[{ date := ⟨2030, 1, 2⟩, name := "Werksferien",
              type := HolidayType.PUBLIC_HOLIDAY, bundeslaender := [],
              description := none, isOneTime := false }], true⟩
          (daysFromCivil 2030 1 2)).isSome ∧
    isWorkingDay
        ⟨[{ date := ⟨2030, 1, 2⟩, name := "Werksferien",
            type := HolidayType.PUBLIC_HOLIDAY,
            bundeslaender := [Bundesland.BY],
            description := none, isOneTime := false }], true⟩
        (daysFromCivil 2030 1 2)
      = isWorkingDay
          ⟨[{ date := ⟨2030, 1, 2⟩, name := "Werksferien",
              type := HolidayType.PUBLIC_HOLIDAY, bundeslaender := [],
              description := none, isOneTime := false }], true⟩
          (daysFromCivil 2030 1 2) :=
  claim_C5_regionBlind.2 _ _ true
    (List.Forall₂.cons ⟨rfl, rfl, rfl, rfl, rfl⟩ List.Forall₂.nil)
    (daysFromCivil 2030 1 2)

end SwitchingDeadlines
